import Mathlib

/-!
Shallow embedding of the DeFi-advisor example repository
(`openhands/agents/defi`, `openhands/agents/defi_advisor`,
`openhands/agents/travel`) and proofs about its scoring, sorting,
error-handling and lookup behaviour.

Python dictionaries with literal keys are embedded as association lists
(`List (key × value)`) together with `dictGet`, which mirrors
`dict.get`: first matching key wins.  Python `float` arithmetic is
embedded over `ℚ` (the claims under study are about the algebraic form
of the computations, not about rounding).  Fallible Python code
(division by zero, `KeyError`) is embedded with explicit outcome types.
-/

namespace DeFiRepo

/-- Embedding of Python dict lookup (`d.get(k)`) over a literal dict,
represented as an association list in insertion order. -/
def dictGet {α β : Type} [DecidableEq α] : List (α × β) → α → Option β
  | [], _ => none
  | (k, v) :: rest, key => if key = k then some v else dictGet rest key

/-- Python `s.startswith(pre)`, modelled over the character list (the
builtin `String.startsWith` does not reduce by computation). -/
def pyStartsWith (s pre : String) : Bool :=
  pre.data.isPrefixOf s.data

/-! ### Embedding of openhands/agents/defi/tools/defi_tools.py -/

/-- Dataclass `YieldStrategy`. -/
structure YieldStrategy where
  protocol : String
  apy : String
  tvl : String
  risk_level : String
  description : String
  min_amount : String
  gas_cost : String
  impermanent_loss_risk : String
  deriving DecidableEq, Repr

/-- Dataclass `GasCosts`. -/
structure GasCosts where
  deposit : String
  withdrawal : String
  frequency : String
  deriving DecidableEq, Repr

/-- Dataclass `RiskDetails`. -/
structure RiskDetails where
  audits : List String
  insurance_available : Bool
  governance : String
  years_active : ℕ
  deriving DecidableEq, Repr

/-- Dataclass `RiskScore`: the five integer risk dimensions plus details. -/
structure RiskScore where
  smart_contract_risk : ℤ
  centralization_risk : ℤ
  regulatory_risk : ℤ
  market_risk : ℤ
  technical_risk : ℤ
  details : RiskDetails
  deriving DecidableEq, Repr

/-- Dataclass `ProtocolData`. -/
structure ProtocolData where
  type : String
  apy : ℚ
  tvl_billions : ℚ
  insurance : String
  min_deposit : ℚ
  withdrawal_time : String
  unique_features : List String
  deriving DecidableEq, Repr

/-- The literal dict returned by `DeFiTools.get_eth_yield_strategies`,
in insertion order. -/
def eth_yield_strategies : List (String × YieldStrategy) :=
  [("Lido",
    { protocol := "Liquid Staking", apy := "3.8%", tvl := "$19.2B",
      risk_level := "Low",
      description := "Liquid staking solution for ETH 2.0. Receive stETH while staking.",
      min_amount := "0.01 ETH", gas_cost := "Medium",
      impermanent_loss_risk := "None" }),
   ("Rocket Pool",
    { protocol := "Liquid Staking", apy := "3.75%", tvl := "$4.1B",
      risk_level := "Low",
      description := "Decentralized ETH staking protocol. Receive rETH while staking.",
      min_amount := "0.01 ETH", gas_cost := "Medium",
      impermanent_loss_risk := "None" }),
   ("Aave V3",
    { protocol := "Lending", apy := "1.2% supply + 2.1% rewards", tvl := "$5.8B",
      risk_level := "Low-Medium",
      description := "Supply ETH to earn interest and additional rewards in AAVE tokens.",
      min_amount := "0.001 ETH", gas_cost := "High",
      impermanent_loss_risk := "None" }),
   ("Curve ETH/stETH",
    { protocol := "Liquidity Pool", apy := "3.5% + 0.8% fees", tvl := "$1.2B",
      risk_level := "Medium",
      description := "Provide liquidity to ETH/stETH pool. Earn trading fees and CRV rewards.",
      min_amount := "0.01 ETH", gas_cost := "High",
      impermanent_loss_risk := "Low" }),
   ("Uniswap V3 ETH/USDC",
    { protocol := "Liquidity Pool", apy := "5-20% (variable)", tvl := "$500M",
      risk_level := "High",
      description := "Concentrated liquidity provision. Higher returns but requires active management.",
      min_amount := "0.1 ETH", gas_cost := "Very High",
      impermanent_loss_risk := "High" })]

/-- The literal `gas_estimates` dict inside `DeFiTools.analyze_gas_costs`. -/
def gas_estimates : List (String × GasCosts) :=
  [("Lido",
    { deposit := "~$30-40", withdrawal := "~$15-20",
      frequency := "One-time deposit, withdrawal when needed" }),
   ("Rocket Pool",
    { deposit := "~$35-45", withdrawal := "~$20-25",
      frequency := "One-time deposit, withdrawal when needed" }),
   ("Aave V3",
    { deposit := "~$50-70", withdrawal := "~$40-60",
      frequency := "One-time deposit, withdrawal when needed" }),
   ("Curve ETH/stETH",
    { deposit := "~$80-100", withdrawal := "~$60-80",
      frequency := "One-time deposit, withdrawal when needed, harvesting rewards ~weekly" }),
   ("Uniswap V3 ETH/USDC",
    { deposit := "~$100-150", withdrawal := "~$80-100",
      frequency := "One-time deposit, position management costs vary" })]

/-- Embeds `DeFiTools.analyze_gas_costs`: `gas_estimates.get(strategy)`. -/
def analyze_gas_costs (strategy : String) : Option GasCosts :=
  dictGet gas_estimates strategy

/-- Per-strategy entry of the literal `roi_data` dict inside
`DeFiTools.calculate_roi`. -/
structure RoiParams where
  base_apy : ℚ
  extra_rewards : ℚ
  gas_cost_eth : ℚ
  deriving DecidableEq, Repr

/-- The literal `roi_data` dict inside `DeFiTools.calculate_roi`. -/
def roi_data_table : List (String × RoiParams) :=
  [("Lido", { base_apy := 0.038, extra_rewards := 0, gas_cost_eth := 0.02 }),
   ("Rocket Pool", { base_apy := 0.0375, extra_rewards := 0, gas_cost_eth := 0.022 }),
   ("Aave V3", { base_apy := 0.012, extra_rewards := 0.021, gas_cost_eth := 0.035 }),
   ("Curve ETH/stETH", { base_apy := 0.035, extra_rewards := 0.008, gas_cost_eth := 0.05 }),
   ("Uniswap V3 ETH/USDC", { base_apy := 0.10, extra_rewards := 0, gas_cost_eth := 0.07 })]

/-- The dict returned by `DeFiTools.calculate_roi` on the success path. -/
structure RoiResult where
  base_return : ℚ
  extra_return : ℚ
  gas_cost : ℚ
  total_return : ℚ
  roi_percentage : ℚ
  deriving DecidableEq, Repr

/-- Outcome of `DeFiTools.calculate_roi`: the empty dict for an unknown
strategy, a `ZeroDivisionError` when `amount == 0` (Python raises on
float division by zero), or the populated result dict. -/
inductive RoiOutcome where
  | empty : RoiOutcome
  | divZero : RoiOutcome
  | ok : RoiResult → RoiOutcome
  deriving DecidableEq, Repr

/-- Embeds `DeFiTools.calculate_roi`.  Monthly rates are `base_apy / 12` and
`extra_rewards / 12`; returns compound over `time_period_months`. -/
def calculate_roi (amount : ℚ) (strategy : String) (time_period_months : ℕ) : RoiOutcome :=
  match dictGet roi_data_table strategy with
  | none => .empty
  | some data =>
    let base_rate := data.base_apy / 12
    let extra_rate := data.extra_rewards / 12
    let base_return := amount * ((1 + base_rate) ^ time_period_months - 1)
    let extra_return := amount * ((1 + extra_rate) ^ time_period_months - 1)
    let total_return := base_return + extra_return - data.gas_cost_eth
    if amount = 0 then .divZero
    else
      .ok { base_return := base_return, extra_return := extra_return,
            gas_cost := data.gas_cost_eth, total_return := total_return,
            roi_percentage := (total_return / amount) * 100 }

/-- The literal `risk_scores` dict inside `DeFiTools.analyze_risk_score`. -/
def risk_scores_table : List (String × RiskScore) :=
  [("Lido",
    { smart_contract_risk := 2, centralization_risk := 4, regulatory_risk := 3,
      market_risk := 2, technical_risk := 2,
      details := { audits := ["Quantstamp", "Sigma Prime", "Trail of Bits"],
                   insurance_available := true, governance := "DAO", years_active := 3 } }),
   ("Rocket Pool",
    { smart_contract_risk := 3, centralization_risk := 2, regulatory_risk := 3,
      market_risk := 2, technical_risk := 3,
      details := { audits := ["ConsenSys Diligence", "Trail of Bits"],
                   insurance_available := true, governance := "Decentralized DAO",
                   years_active := 2 } }),
   ("Aave V3",
    { smart_contract_risk := 2, centralization_risk := 3, regulatory_risk := 4,
      market_risk := 3, technical_risk := 2,
      details := { audits := ["OpenZeppelin", "SigmaPrime", "ABDK"],
                   insurance_available := true, governance := "DAO", years_active := 4 } }),
   ("Curve ETH/stETH",
    { smart_contract_risk := 3, centralization_risk := 3, regulatory_risk := 3,
      market_risk := 4, technical_risk := 3,
      details := { audits := ["Trail of Bits", "MixBytes"],
                   insurance_available := true, governance := "DAO", years_active := 3 } }),
   ("Uniswap V3 ETH/USDC",
    { smart_contract_risk := 3, centralization_risk := 2, regulatory_risk := 4,
      market_risk := 7, technical_risk := 5,
      details := { audits := ["Trail of Bits", "ABDK"],
                   insurance_available := true, governance := "DAO", years_active := 2 } })]

/-- Embeds `DeFiTools.analyze_risk_score`: `risk_scores.get(strategy)`. -/
def analyze_risk_score (strategy : String) : Option RiskScore :=
  dictGet risk_scores_table strategy

/-- The literal `protocol_data` dict inside `DeFiTools.get_protocol_data`. -/
def protocol_data_table : List (String × ProtocolData) :=
  [("Lido",
    { type := "Liquid Staking", apy := 3.8, tvl_billions := 19.2, insurance := "Yes",
      min_deposit := 0.01, withdrawal_time := "Instant for stETH, variable for ETH",
      unique_features := ["No minimum stake", "Liquid staking derivative", "Wide integration"] }),
   ("Rocket Pool",
    { type := "Liquid Staking", apy := 3.75, tvl_billions := 4.1, insurance := "Yes",
      min_deposit := 0.01, withdrawal_time := "Instant for rETH, variable for ETH",
      unique_features := ["Decentralized node operators", "Lower minimum stake",
                          "Node operator opportunities"] }),
   ("Aave V3",
    { type := "Lending", apy := 3.3, tvl_billions := 5.8, insurance := "Yes",
      min_deposit := 0.001, withdrawal_time := "Instant",
      unique_features := ["Multiple asset types", "Flash loans", "Isolation mode"] }),
   ("Curve ETH/stETH",
    { type := "Liquidity Pool", apy := 4.3, tvl_billions := 1.2, insurance := "Yes",
      min_deposit := 0.01, withdrawal_time := "Instant",
      unique_features := ["Low slippage", "CRV rewards", "Stable pair focus"] }),
   ("Uniswap V3 ETH/USDC",
    { type := "Liquidity Pool", apy := 12.5, tvl_billions := 0.5, insurance := "No",
      min_deposit := 0.1, withdrawal_time := "Instant",
      unique_features := ["Concentrated liquidity", "Custom fee tiers", "Active management"] })]

/-- Embeds `DeFiTools.get_protocol_data`: `protocol_data.get(protocol)`. -/
def get_protocol_data (protocol : String) : Option ProtocolData :=
  dictGet protocol_data_table protocol

/-- The five protocol names that key every hardcoded `DeFiTools` table. -/
def knownProtocols : List String :=
  ["Lido", "Rocket Pool", "Aave V3", "Curve ETH/stETH", "Uniswap V3 ETH/USDC"]

/-! ### Embedding of openhands/agents/defi/enhanced_advisor.py

The web-verification fields of `StrategyRecommendation`
(`verification_data`, `references`) are static data from
`web_verifier.py` that no claim touches; they are omitted from the
embedded record.  All fields that feed the scoring, filtering and
sorting logic are kept. -/

/-- Dataclass `StrategyRecommendation` (verification fields omitted). -/
structure StrategyRecommendation where
  protocol : String
  expected_roi : ℚ
  risk_level : String
  gas_costs_deposit : String
  gas_costs_withdrawal : String
  pros : List String
  cons : List String
  recommendation_strength : String
  additional_notes : String
  deriving DecidableEq, Repr

/-- The literal `risk_ranges` dict inside
`EnhancedDeFiAdvisor._evaluate_risk_match`. -/
def risk_ranges : List (String × (ℚ × ℚ)) :=
  [("low", (0, 4)), ("medium", (3, 6)), ("high", (5, 10))]

/-- Embeds `EnhancedDeFiAdvisor._evaluate_risk_match`.  `none` models the
`KeyError` raised when `preference.lower()` is not a key of
`risk_ranges`. -/
def evaluate_risk_match (risk_score : ℚ) (preference : String) : Option Bool :=
  (dictGet risk_ranges preference.toLower).map
    fun p => decide (p.1 ≤ risk_score ∧ risk_score ≤ p.2)

/-- Embeds `EnhancedDeFiAdvisor._risk_score_to_level`. -/
def risk_score_to_level (score : ℚ) : String :=
  if score < 3 then "Low"
  else if score < 5 then "Medium"
  else "High"

/-- The `total_risk_score` computed inside
`EnhancedDeFiAdvisor.get_strategy_recommendations`: the five risk
dimensions summed and divided by `5.0`. -/
def total_risk_score (rs : RiskScore) : ℚ :=
  ((rs.smart_contract_risk : ℚ) + (rs.centralization_risk : ℚ) +
   (rs.regulatory_risk : ℚ) + (rs.market_risk : ℚ) + (rs.technical_risk : ℚ)) / 5

/-- Outcome of `EnhancedDeFiAdvisor._analyze_pros_cons`: the function
divides `roi_data["gas_cost"] * 100` by `amount`, so `amount == 0`
raises `ZeroDivisionError`. -/
inductive ProsConsOutcome where
  | divZero : ProsConsOutcome
  | ok : List String → List String → ProsConsOutcome
  deriving DecidableEq, Repr

/-- Render a rational with one decimal digit, used for the `:.1f`
f-strings in `_analyze_pros_cons` (rounding of the Python float is
approximated by rational rounding; no claim inspects these strings). -/
def fmt1 (q : ℚ) : String :=
  let m : ℤ := round (q * 10)
  let sgn := if m < 0 then "-" else ""
  let n := m.natAbs
  sgn ++ toString (n / 10) ++ "." ++ toString (n % 10)

/-- Plain decimal rendering used for the `{...}` f-string holes on
numeric values (`tvl_billions`); again no claim inspects it. -/
def fmtQ (q : ℚ) : String := toString q

/-- Embeds `EnhancedDeFiAdvisor._analyze_pros_cons`. -/
def analyze_pros_cons (protocol_data : ProtocolData) (roi_data : RoiResult)
    (risk_score : RiskScore) (amount : ℚ) : ProsConsOutcome :=
  if amount = 0 then .divZero
  else
    let pros0 : List String :=
      if roi_data.roi_percentage > 5 then
        ["High potential returns (" ++ fmt1 roi_data.roi_percentage ++ "% ROI)"]
      else []
    let cons0 : List String :=
      if roi_data.roi_percentage > 5 then []
      else if roi_data.roi_percentage < 2 then
        ["Low potential returns (" ++ fmt1 roi_data.roi_percentage ++ "% ROI)"]
      else []
    let pros1 := pros0 ++
      (if risk_score.smart_contract_risk < 3 then ["Low smart contract risk"] else [])
    let cons1 := cons0 ++
      (if risk_score.smart_contract_risk < 3 then []
       else if risk_score.smart_contract_risk > 5 then ["High smart contract risk"] else [])
    let gas_cost_percentage := (roi_data.gas_cost * 100) / amount
    let pros2 := pros1 ++
      (if gas_cost_percentage < 1 then ["Low gas costs relative to investment"] else [])
    let cons2 := cons1 ++
      (if gas_cost_percentage < 1 then []
       else if gas_cost_percentage > 3 then ["High gas costs relative to investment"] else [])
    let pros3 := pros2 ++
      (if protocol_data.insurance = "Yes" then ["Insurance available"] else [])
    let cons3 := cons2 ++
      (if protocol_data.insurance = "Yes" then [] else ["No insurance coverage"])
    let pros4 := pros3 ++
      (if protocol_data.tvl_billions > 5 then
        ["Large TVL ($" ++ fmtQ protocol_data.tvl_billions ++ "B)"] else [])
    let cons4 := cons3 ++
      (if protocol_data.tvl_billions > 5 then []
       else if protocol_data.tvl_billions < 1 then
        ["Small TVL ($" ++ fmtQ protocol_data.tvl_billions ++ "B)"] else [])
    .ok pros4 cons4

/-- The point total accumulated inside
`EnhancedDeFiAdvisor._calculate_recommendation_strength` (ROI points +
risk points + TVL points). -/
def recommendation_points (roi_percentage risk_score tvl_billions : ℚ) : ℕ :=
  (if roi_percentage > 10 then 3
   else if roi_percentage > 5 then 2
   else if roi_percentage > 2 then 1
   else 0) +
  (if risk_score < 3 then 3
   else if risk_score < 5 then 2
   else if risk_score < 7 then 1
   else 0) +
  (if tvl_billions > 10 then 3
   else if tvl_billions > 5 then 2
   else if tvl_billions > 1 then 1
   else 0)

/-- Embeds `EnhancedDeFiAdvisor._calculate_recommendation_strength`. -/
def calculate_recommendation_strength (risk_match : Bool)
    (roi_percentage risk_score tvl_billions : ℚ) : String :=
  if !risk_match then "Weak"
  else
    let points := recommendation_points roi_percentage risk_score tvl_billions
    if points ≥ 7 then "Strong"
    else if points ≥ 4 then "Moderate"
    else "Weak"

/-- Embeds `EnhancedDeFiAdvisor._strength_to_score`.  The source indexes the
dict `{"Strong": 3, "Moderate": 2, "Weak": 1}`; it is only ever applied
to outputs of `_calculate_recommendation_strength`, so the
`KeyError` default branch (0 here) is unreachable in the pipeline. -/
def strength_to_score (strength : String) : ℕ :=
  if strength = "Strong" then 3
  else if strength = "Moderate" then 2
  else if strength = "Weak" then 1
  else 0

/-- Embeds `EnhancedDeFiAdvisor._generate_additional_notes`. -/
def generate_additional_notes (protocol_data : ProtocolData) (risk_score : RiskScore)
    (time_horizon_months : ℕ) : String :=
  let notes0 : List String :=
    if time_horizon_months < 3 then
      ["Short time horizon: Consider gas costs impact on overall returns."]
    else if time_horizon_months > 12 then
      ["Long time horizon: Consider protocol's track record and governance structure."]
    else []
  let notes1 := notes0 ++
    (if protocol_data.type = "Liquid Staking" then
      ["Liquid staking tokens can be used in other DeFi protocols for additional yield."]
     else if protocol_data.type = "Liquidity Pool" then
      ["Monitor impermanent loss and consider active position management."]
     else [])
  let notes2 := notes1 ++
    (if risk_score.technical_risk > 5 then
      ["Higher technical complexity: Ensure understanding of protocol mechanics."]
     else [])
  let notes3 := notes2 ++
    (if risk_score.regulatory_risk > 5 then
      ["Consider potential regulatory impacts on protocol operations."]
     else [])
  String.intercalate " " notes3

/-- Errors that abort `get_strategy_recommendations`: the
`ZeroDivisionError` from `calculate_roi` / `_analyze_pros_cons`, or the
`KeyError` from `_evaluate_risk_match` on an unknown preference. -/
inductive AdvisorErr where
  | divZero : AdvisorErr
  | keyErr : AdvisorErr
  deriving DecidableEq, Repr

/-- The sort order used by `get_strategy_recommendations`: Python's
`sorted(key=lambda x: (strength_score, roi), reverse=True)`, i.e. the
descending lexicographic preorder on the key pair. -/
def recommendedBefore (a b : StrategyRecommendation) : Prop :=
  strength_to_score a.recommendation_strength > strength_to_score b.recommendation_strength ∨
    (strength_to_score a.recommendation_strength = strength_to_score b.recommendation_strength ∧
      a.expected_roi ≥ b.expected_roi)

instance : DecidableRel recommendedBefore := fun a b => by
  unfold recommendedBefore
  infer_instance

instance : IsTotal StrategyRecommendation recommendedBefore where
  total a b := by
    unfold recommendedBefore
    rcases lt_trichotomy (strength_to_score a.recommendation_strength)
      (strength_to_score b.recommendation_strength) with h | h | h
    · right
      left
      exact h
    · rcases le_total b.expected_roi a.expected_roi with hr | hr
      · exact Or.inl (Or.inr ⟨h, hr⟩)
      · exact Or.inr (Or.inr ⟨h.symm, hr⟩)
    · left
      left
      exact h

instance : IsTrans StrategyRecommendation recommendedBefore where
  trans a b c hab hbc := by
    unfold recommendedBefore at *
    rcases hab with h1 | ⟨h1, r1⟩
    · rcases hbc with h2 | ⟨h2, r2⟩
      · exact Or.inl (h2.trans h1)
      · exact Or.inl (h2 ▸ h1)
    · rcases hbc with h2 | ⟨h2, r2⟩
      · exact Or.inl (h1 ▸ h2)
      · exact Or.inr ⟨h1.trans h2, r2.trans r1⟩

/-- The body of the `for protocol_name, strategy in strategies.items()`
loop of `get_strategy_recommendations`: either skips the protocol
(`continue` paths, `none`), aborts with an exception, or produces one
`StrategyRecommendation`. -/
def process_protocol (amount : ℚ) (time_horizon_months : ℕ) (risk_preference : String)
    (min_apy : Option ℚ) (max_gas_cost : Option ℚ) (protocol_name : String) :
    Except AdvisorErr (Option StrategyRecommendation) :=
  match get_protocol_data protocol_name with
  | none => .ok none
  | some protocol_data =>
    match calculate_roi amount protocol_name time_horizon_months with
    | .empty => .ok none
    | .divZero => .error .divZero
    | .ok roi_data =>
      match analyze_risk_score protocol_name with
      | none => .ok none
      | some risk_score =>
        match analyze_gas_costs protocol_name with
        | none => .ok none
        | some gas_costs =>
          let total := total_risk_score risk_score
          -- `if min_apy and protocol_data.apy < min_apy:` (0 and None falsy)
          if (min_apy.getD 0) ≠ 0 ∧ protocol_data.apy < min_apy.getD 0 then .ok none
          else if (max_gas_cost.getD 0) ≠ 0 ∧ roi_data.gas_cost > max_gas_cost.getD 0 then
            .ok none
          else
            match evaluate_risk_match total risk_preference with
            | none => .error .keyErr
            | some false => .ok none
            | some true =>
              match analyze_pros_cons protocol_data roi_data risk_score amount with
              | .divZero => .error .divZero
              | .ok pros cons =>
                let strength := calculate_recommendation_strength true
                  roi_data.roi_percentage total protocol_data.tvl_billions
                .ok (some
                  { protocol := protocol_name,
                    expected_roi := roi_data.roi_percentage,
                    risk_level := risk_score_to_level total,
                    gas_costs_deposit := gas_costs.deposit,
                    gas_costs_withdrawal := gas_costs.withdrawal,
                    pros := pros, cons := cons,
                    recommendation_strength := strength,
                    additional_notes := generate_additional_notes protocol_data
                      risk_score time_horizon_months })

/-- Run the recommendation loop over the (ordered) strategy names. -/
def build_recommendations (amount : ℚ) (time_horizon_months : ℕ) (risk_preference : String)
    (min_apy : Option ℚ) (max_gas_cost : Option ℚ) :
    List String → Except AdvisorErr (List StrategyRecommendation)
  | [] => .ok []
  | name :: rest => do
    let head ← process_protocol amount time_horizon_months risk_preference
      min_apy max_gas_cost name
    let tail ← build_recommendations amount time_horizon_months risk_preference
      min_apy max_gas_cost rest
    pure (match head with | some r => r :: tail | none => tail)

/-- Embeds `EnhancedDeFiAdvisor.get_strategy_recommendations`.  The final sort
is Python's stable `sorted` with `reverse=True` on the key
`(strength_score, expected_roi)`; `List.insertionSort` with the
non-strict descending preorder `recommendedBefore` is the same stable
sort. -/
def get_strategy_recommendations (amount : ℚ) (time_horizon_months : ℕ)
    (risk_preference : String) (specific_protocols : Option (List String))
    (min_apy : Option ℚ) (max_gas_cost : Option ℚ) :
    Except AdvisorErr (List StrategyRecommendation) :=
  let names := (eth_yield_strategies.map Prod.fst)
  -- `if specific_protocols:` — None and the empty list are falsy
  let names := match specific_protocols with
    | none => names
    | some l => if l = [] then names else names.filter (· ∈ l)
  (build_recommendations amount time_horizon_months risk_preference
      min_apy max_gas_cost names).map
    (List.insertionSort recommendedBefore)

/-! ### Embedding of openhands/agents/travel/tools.py -/

/-- One city's entry of the `city_data` dict inside
`CityData.get_city_data`: the `locations` dict and the tuple-keyed
`travel_times` dict. -/
structure CityInfo where
  locations : List (String × String)
  travel_times : List ((String × String) × String)
  deriving DecidableEq, Repr

/-- The Paris entry of `city_data`. -/
def parisInfo : CityInfo where
  locations :=
    [("Eiffel Tower", "Open 9:00-00:45 in summer. Iconic iron tower with city views. Best visited early morning or sunset."),
     ("Louvre", "Open Wed-Mon 9:00-18:00. World's largest art museum, home to the Mona Lisa. Closed Tuesdays."),
     ("Montmartre", "Historic district on a hill, famous for Sacré-Cœur basilica and artist square. Best in morning or late afternoon."),
     ("Notre-Dame", "Cathedral under reconstruction. Plaza and exterior viewable 24/7."),
     ("Versailles", "Palace open Tue-Sun 9:00-18:30. Closed Mondays. Plan at least half day for palace and gardens.")]
  travel_times :=
    [(("Eiffel Tower", "Louvre"), "25 minutes by Metro line 9"),
     (("Louvre", "Montmartre"), "20 minutes by Metro line 12"),
     (("Montmartre", "Notre-Dame"), "30 minutes by Metro line 12 and 4"),
     (("Notre-Dame", "Versailles"), "1 hour by RER C"),
     (("Eiffel Tower", "Versailles"), "45 minutes by RER C")]

/-- The Ho Chi Minh City entry of `city_data`. -/
def hoChiMinhInfo : CityInfo where
  locations :=
    [("Ben Thanh Market", "Open 6:00-24:00. Famous market for local goods, souvenirs, and street food. Best for shopping and experiencing local culture."),
     ("War Remnants Museum", "Open 7:30-18:00 daily. Powerful museum displaying artifacts and photographs from the Vietnam War. Plan 1-2 hours for visit."),
     ("Notre-Dame Cathedral", "Open for viewing 8:00-17:00 daily. Historic cathedral from French colonial period. Note: Currently under renovation but exterior still viewable."),
     ("Central Post Office", "Open 7:00-19:00 daily. Beautiful French colonial architecture, still functioning as a post office. Free entrance."),
     ("Independence Palace", "Open 7:30-11:00, 13:00-16:00 daily. Historic palace from the Vietnam War era."),
     ("Bitexco Tower", "Observation deck open 9:30-21:30. City's iconic skyscraper with observation deck on 49th floor."),
     ("Nguyen Hue Walking Street", "Best visited evening/weekend. Pedestrian street with fountains, street performances, and cafes."),
     ("Cho Lon", "Open all day. Historic Chinatown district with Binh Tay Market and pagodas. Best in morning for market activity."),
     ("Cu Chi Tunnels", "Open 7:00-17:00 daily. Historic tunnel network from Vietnam War. Located 70km from city center.")]
  travel_times :=
    [(("Ben Thanh Market", "War Remnants Museum"), "15 minutes by bus route 1 or taxi"),
     (("War Remnants Museum", "Notre-Dame Cathedral"), "10 minutes by taxi or 20 minutes walking"),
     (("Notre-Dame Cathedral", "Central Post Office"), "2 minutes walking"),
     (("Central Post Office", "Independence Palace"), "10 minutes walking"),
     (("Independence Palace", "Ben Thanh Market"), "15 minutes walking or 5 minutes by taxi"),
     (("Ben Thanh Market", "Bitexco Tower"), "10 minutes walking"),
     (("Bitexco Tower", "Nguyen Hue Walking Street"), "5 minutes walking"),
     (("Ben Thanh Market", "Cho Lon"), "25 minutes by bus route 1 or 15 minutes by taxi"),
     (("War Remnants Museum", "Cu Chi Tunnels"), "1.5 hours by bus or 1 hour by taxi")]

/-- Embeds `CityData.get_city_data`: `city_data.get(city, {})`; `none` models
the empty dict returned for an unknown city (falsy under
`if not city_data:`). -/
def get_city_data (city : String) : Option CityInfo :=
  if city = "Paris" then some parisInfo
  else if city = "Ho Chi Minh City" then some hoChiMinhInfo
  else none

/-- The `try/except KeyError` chain of `get_travel_time`: look up
`(from, to)`, then `(to, from)`, then fall back to the fixed
estimate. -/
def travel_lookup (travel_times : List ((String × String) × String))
    (from_location to_location : String) : String :=
  match dictGet travel_times (from_location, to_location) with
  | some t => t
  | none =>
    match dictGet travel_times (to_location, from_location) with
    | some t => t
    | none => "20-30 minutes by public transport (estimated)"

/-- Embeds `get_travel_time`: unknown city message, otherwise the lookup
chain over the city's `travel_times` dict. -/
def get_travel_time (city from_location to_location : String) : String :=
  match get_city_data city with
  | none => "Travel time information not available for " ++ city
  | some city_data => travel_lookup city_data.travel_times from_location to_location

/-! ### Embedding of openhands/agents/defi/token_analyzer/

The mocked async data providers.  `await asyncio.sleep(0.1)` calls are
counted in the `sleeps` field; exceptions raised by the providers are
the `Except` error branch.  Real wall-clock time and the event loop are
irrelevant to the claims (the stubs are deterministic). -/

/-- Relevant client configuration: `"invalid_key" in self.config.values()`
and the `_mock_network_error` attribute probed with `hasattr`. -/
structure ClientCfg where
  invalidKey : Bool
  mockNetworkError : Bool
  deriving DecidableEq, Repr

/-- The benign configuration (`config or {}`, no mock attribute). -/
def defaultCfg : ClientCfg := ⟨false, false⟩

/-- Exceptions raised by the provider stubs. -/
inductive ProviderErr where
  | invalidAddress : ProviderErr
  | unsupportedChain : String → ProviderErr
  | invalidApiKey : ProviderErr
  | networkErr : ProviderErr
  deriving DecidableEq, Repr

/-- Result of one provider call: how many times it slept, and the value
returned or the exception raised. -/
structure ProviderOut (α : Type) where
  sleeps : ℕ
  result : Except ProviderErr α
  deriving Repr

/-- The fixed dict returned by `BlockchainClient.get_token_info`. -/
structure TokenInfoDict where
  name : String
  symbol : String
  decimals : ℕ
  total_supply : ℚ
  deriving DecidableEq, Repr

/-- The argument validation shared by `get_token_info` and
`get_token_price`. -/
def validRequest (cfg : ClientCfg) (contract_address blockchain : String) : Prop :=
  pyStartsWith contract_address "0x" = true ∧
    (blockchain = "ethereum" ∨ blockchain = "bsc") ∧
    cfg.invalidKey = false ∧ cfg.mockNetworkError = false

instance (cfg : ClientCfg) (a b : String) : Decidable (validRequest cfg a b) := by
  unfold validRequest
  infer_instance

/-- Embeds `BlockchainClient.get_token_info`: sleeps once, validates the
address format, the blockchain name, the API key and the mock
network-error flag, then returns the fixed dict. -/
def get_token_info (cfg : ClientCfg) (contract_address blockchain : String) :
    ProviderOut TokenInfoDict :=
  { sleeps := 1
    result :=
      if ¬ pyStartsWith contract_address "0x" then .error .invalidAddress
      else if blockchain ≠ "ethereum" ∧ blockchain ≠ "bsc" then
        .error (.unsupportedChain blockchain)
      else if cfg.invalidKey then .error .invalidApiKey
      else if cfg.mockNetworkError then .error .networkErr
      else .ok { name := "Test Token", symbol := "TEST", decimals := 18,
                 total_supply := 1000000000 } }

/-- The fixed dict returned by `BlockchainClient.get_holder_distribution`
(no validation, never raises). -/
structure HolderDistDict where
  total_holders : ℕ
  top_holders : List (String × ℚ × ℚ)
  deriving DecidableEq, Repr

/-- Embeds `BlockchainClient.get_holder_distribution`. -/
def get_holder_distribution (_contract_address _blockchain : String) :
    ProviderOut HolderDistDict :=
  { sleeps := 1
    result := .ok { total_holders := 1000,
                    top_holders := [("0x1", 100000, 10), ("0x2", 50000, 5)] } }

/-- The fixed dict returned by `MarketDataClient.get_token_price`. -/
structure PriceDict where
  price_usd : ℚ
  price_change_24h : ℚ
  volume_24h_usd : ℚ
  deriving DecidableEq, Repr

/-- Embeds `MarketDataClient.get_token_price`: same validation pattern as
`get_token_info`, then the fixed dict. -/
def get_token_price (cfg : ClientCfg) (contract_address blockchain : String) :
    ProviderOut PriceDict :=
  { sleeps := 1
    result :=
      if ¬ pyStartsWith contract_address "0x" then .error .invalidAddress
      else if blockchain ≠ "ethereum" ∧ blockchain ≠ "bsc" then
        .error (.unsupportedChain blockchain)
      else if cfg.invalidKey then .error .invalidApiKey
      else if cfg.mockNetworkError then .error .networkErr
      else .ok { price_usd := 1.23, price_change_24h := 5.5, volume_24h_usd := 1000000 } }

/-- The fixed dict returned by `SecurityAnalyzer.analyze_contract`. -/
structure SecurityDict where
  risk_score : ℚ
  issues : List (String × String × String)
  recommendations : List String
  deriving DecidableEq, Repr

/-- Embeds `SecurityAnalyzer.analyze_contract`: no sleep, no validation, the
fixed dict for every argument. -/
def analyze_contract (_contract_address _blockchain : String) : ProviderOut SecurityDict :=
  { sleeps := 0
    result := .ok
      { risk_score := 75,
        issues := [("medium", "centralization", "Owner has significant privileges")],
        recommendations := ["Monitor owner actions", "Consider implementing timelock"] } }

/-- Dataclass `DistributionMetrics` as populated by
`TokenAnalysisAgent._analyze_distribution` (mock constants plus the
holder count from the provider). -/
structure DistributionMetrics where
  total_supply : ℚ
  circulating_supply : ℚ
  holder_count : ℕ
  top_10_holders_percentage : ℚ
  top_50_holders_percentage : ℚ
  top_100_holders_percentage : ℚ
  liquidity_pool_percentage : ℚ
  team_wallet_percentage : ℚ
  staking_locked_percentage : ℚ
  gini_coefficient : ℚ
  holder_concentration : ℚ
  liquidity_ratio : ℚ
  deriving DecidableEq, Repr

/-- Dataclass `MarketMetrics` as populated by
`TokenAnalysisAgent._get_market_metrics`. -/
structure MarketMetrics where
  price_usd : ℚ
  market_cap_usd : ℚ
  volume_24h_usd : ℚ
  price_change_24h : ℚ
  volume_change_24h : ℚ
  volatility_30d : ℚ
  correlation_with_eth : ℚ
  correlation_with_btc : ℚ
  deriving DecidableEq, Repr

/-- Dataclass `RiskAssessment` as populated by
`TokenAnalysisAgent._assess_risk`. -/
structure RiskAssessment where
  concentration_risk : String
  liquidity_risk : String
  contract_risk : String
  manipulation_risk : String
  regulatory_risk : String
  overall_risk_score : ℚ
  risk_factors : List String
  recommendations : List String
  warning_flags : List String
  deriving DecidableEq, Repr

/-- The deterministic fields of dataclass `TokenAnalysis` assembled by
`analyze_token` (the two `datetime.utcnow()` fields are real-time and
are omitted; the remaining fields are kept). -/
structure TokenAnalysis where
  token_name : String
  token_symbol : String
  contract_address : String
  blockchain : String
  token_type : String
  distribution : DistributionMetrics
  risk : RiskAssessment
  market : MarketMetrics
  summary : String
  recommendations : List String
  red_flags : List String
  deriving DecidableEq, Repr

/-- One data-provider call made by the agent, with its arguments. -/
inductive DataCall where
  | tokenInfo : String → String → DataCall
  | holderDist : String → String → DataCall
  | tokenPrice : String → String → DataCall
  | contractAnalysis : String → String → DataCall
  deriving DecidableEq, Repr

/-- Embeds `TokenAnalysisAgent._analyze_distribution`: one call to
`get_holder_distribution`, then the mock-constant metrics. -/
def agent_analyze_distribution (contract_address blockchain : String) :
    List DataCall × DistributionMetrics :=
  let holder_data := get_holder_distribution contract_address blockchain
  let dist : DistributionMetrics :=
    { total_supply := 1000000000, circulating_supply := 800000000,
      holder_count := (holder_data.result.toOption.map (·.total_holders)).getD 0,
      top_10_holders_percentage := 60, top_50_holders_percentage := 80,
      top_100_holders_percentage := 90, liquidity_pool_percentage := 20,
      team_wallet_percentage := 15, staking_locked_percentage := 30,
      gini_coefficient := 0.85, holder_concentration := 0.75, liquidity_ratio := 0.15 }
  ([.holderDist contract_address blockchain], dist)

/-- Embeds `TokenAnalysisAgent._get_market_metrics`: one call to
`get_token_price`; a raised exception propagates. -/
def agent_get_market_metrics (cfg : ClientCfg) (contract_address blockchain : String) :
    List DataCall × Except ProviderErr MarketMetrics :=
  let price_data := get_token_price cfg contract_address blockchain
  ([.tokenPrice contract_address blockchain],
   price_data.result.map fun pd =>
    { price_usd := pd.price_usd, market_cap_usd := pd.price_usd * 1000000000,
      volume_24h_usd := pd.volume_24h_usd, price_change_24h := pd.price_change_24h,
      volume_change_24h := 10, volatility_30d := 0.5,
      correlation_with_eth := 0.7, correlation_with_btc := 0.6 })

/-- Embeds `TokenAnalysisAgent._assess_risk`. -/
def agent_assess_risk (distribution : DistributionMetrics) (_market : MarketMetrics)
    (security : SecurityDict) : RiskAssessment :=
  { concentration_risk := if distribution.holder_concentration > 0.7 then "high" else "medium",
    liquidity_risk := "medium",
    contract_risk := if security.risk_score > 70 then "low" else "high",
    manipulation_risk := "medium", regulatory_risk := "medium",
    overall_risk_score := 65,
    risk_factors := ["High holder concentration", "Above average volatility"],
    recommendations := ["Monitor whale movements", "Set strict stop losses"],
    warning_flags := ["High concentration in top wallets"] }

/-- Embeds `TokenAnalysisAgent._generate_summary`. -/
def agent_generate_summary (distribution : DistributionMetrics) (risk : RiskAssessment)
    (_market : MarketMetrics) : String :=
  "Token shows " ++ toString risk.overall_risk_score.num ++ " risk score with " ++
    toString distribution.holder_count ++ " holders"

/-- Embeds `TokenAnalysisAgent._identify_red_flags`. -/
def agent_identify_red_flags (distribution : DistributionMetrics) (market : MarketMetrics)
    (security : SecurityDict) : List String :=
  (if distribution.holder_concentration > 0.7 then ["High holder concentration"] else []) ++
  (if market.volatility_30d > 0.4 then ["High volatility"] else []) ++
  (if security.risk_score < 70 then ["Security concerns"] else [])

/-- Embeds `TokenAnalysisAgent.analyze_token`: the sequence of awaited
provider calls with the resulting `TokenAnalysis` (or the first raised
exception).  The trace lists the data-provider calls in program
order. -/
def analyze_token (bcfg mcfg : ClientCfg) (contract_address blockchain : String) :
    List DataCall × Except ProviderErr TokenAnalysis :=
  let ti := get_token_info bcfg contract_address blockchain
  match ti.result with
  | .error e => ([.tokenInfo contract_address blockchain], .error e)
  | .ok token_info =>
    let (c2, distribution) := agent_analyze_distribution contract_address blockchain
    let (c3, marketRes) := agent_get_market_metrics mcfg contract_address blockchain
    match marketRes with
    | .error e => ([.tokenInfo contract_address blockchain] ++ c2 ++ c3, .error e)
    | .ok market =>
      let sec := analyze_contract contract_address blockchain
      match sec.result with
      | .error e =>
        ([.tokenInfo contract_address blockchain] ++ c2 ++ c3 ++
          [.contractAnalysis contract_address blockchain], .error e)
      | .ok security =>
        let risk := agent_assess_risk distribution market security
        ([.tokenInfo contract_address blockchain] ++ c2 ++ c3 ++
          [.contractAnalysis contract_address blockchain],
         .ok { token_name := token_info.name, token_symbol := token_info.symbol,
               contract_address := contract_address, blockchain := blockchain,
               token_type := "ERC20", distribution := distribution, risk := risk,
               market := market,
               summary := agent_generate_summary distribution risk market,
               recommendations := risk.recommendations,
               red_flags := agent_identify_red_flags distribution market security })

/-! ### Embedding of openhands/agents/defi_advisor/actions.py

Each `execute` wraps its whole body in `try/except Exception` and
returns a dict.  The outcome of the wrapped `requests.get` call is a
parameter: either an exception raised anywhere inside the `try` (the
`raised` constructor, carrying `str(e)`) or a response with a status
code and a parsed body of the shape the code reads.  Numeric JSON
values are `ℚ`. -/

/-- The dict returned by an `execute` method: the `status` value and the
optional `data` / `message` entries. -/
structure ActionOut (α : Type) where
  status : String
  data : Option α
  message : Option String
  deriving Repr

/-- Outcome of the wrapped HTTP call seen from inside the `try` block. -/
inductive HttpOutcome (β : Type) where
  | raised : String → HttpOutcome β
  | resp : ℤ → β → HttpOutcome β
  deriving Repr

/-- Python's `s.split()` (split on whitespace, dropping empty pieces). -/
def pySplitWs (s : String) : List String :=
  (s.split Char.isWhitespace).filter (· ≠ "")

/-- The crypto symbol extracted by `PriceFetchAction.execute`:
`request.lower().split('price of ')[-1].split('?')[0].strip().upper()`. -/
def extract_crypto_price (request : String) : String :=
  (((((request.toLower).splitOn "price of ").getLastD "").splitOn "?").headD "").trim.toUpper

/-- The `data` payload of a successful `PriceFetchAction.execute`. -/
structure PriceData where
  price : ℚ
  currency : String
  crypto : String
  deriving DecidableEq, Repr

/-- Body shape read by `PriceFetchAction.execute`: the CoinGecko
`simple/price` JSON, an object of objects of numbers. -/
def PriceBody : Type := List (String × List (String × ℚ))

/-- Embeds `PriceFetchAction.execute`.  `default_currency` comes from
`initialize`.  `if price:` is Python truthiness: present and nonzero. -/
def price_fetch_execute (default_currency request : String)
    (outcome : HttpOutcome PriceBody) : ActionOut PriceData :=
  let crypto := extract_crypto_price request
  match outcome with
  | .raised e =>
    { status := "error", data := none, message := some ("Error fetching price: " ++ e) }
  | .resp status_code body =>
    let price : Option ℚ :=
      dictGet ((dictGet body crypto.toLower).getD []) default_currency.toLower
    if status_code = 200 ∧ (price.getD 0) ≠ 0 then
      { status := "success",
        data := some { price := price.getD 0, currency := default_currency, crypto := crypto },
        message := none }
    else
      { status := "error", data := none,
        message := some ("Unable to fetch price for " ++ crypto) }

/-- Render a rational with two decimal digits, for the `:.2f` f-string
holes (float rounding approximated by rational rounding; no claim
inspects the digits). -/
def fmt2 (q : ℚ) : String :=
  let m : ℤ := round (q * 100)
  let sgn := if m < 0 then "-" else ""
  let n := m.natAbs
  sgn ++ toString (n / 100) ++ "." ++ (if n % 100 < 10 then "0" else "") ++ toString (n % 100)

/-- The `data` payload of a successful `MarketAnalysisAction.execute`. -/
structure MarketData where
  trend : String
  price_change_24h : String
  analysis : String
  deriving DecidableEq, Repr

/-- Body shape read by `MarketAnalysisAction.execute`: the `prices`
array of `[timestamp, price]` pairs (`data.get('prices', [])`). -/
def MarketBody : Type := List (ℚ × ℚ)

/-- The token extracted by `MarketAnalysisAction.execute`:
`request.lower().split('trend for ')[-1].split()[0]`; `none` when
`.split()` is empty, in which case `[0]` raises `IndexError` inside the
`try`. -/
def extract_crypto_trend (request : String) : Option String :=
  (pySplitWs (((request.toLower).splitOn "trend for ").getLastD "")).head?

/-- Embeds `MarketAnalysisAction.execute`.  The `IndexError` from the request
parsing and the `ZeroDivisionError` from `start_price == 0` are both
caught by the `except` clause. -/
def market_analysis_execute (request : String) (outcome : HttpOutcome MarketBody) :
    ActionOut MarketData :=
  match extract_crypto_trend request with
  | none =>
    { status := "error", data := none,
      message := some "Error analyzing market: list index out of range" }
  | some w =>
    let crypto := w.trim.toUpper
    match outcome with
    | .raised e =>
      { status := "error", data := none, message := some ("Error analyzing market: " ++ e) }
    | .resp status_code prices =>
      if status_code = 200 ∧ prices.length ≥ 2 then
        let start_price := (prices.headD (0, 0)).2
        let end_price := (prices.getLastD (0, 0)).2
        if start_price = 0 then
          { status := "error", data := none,
            message := some "Error analyzing market: float division by zero" }
        else
          let price_change := ((end_price - start_price) / start_price) * 100
          let trend := if price_change > 0 then "bullish" else "bearish"
          { status := "success",
            data := some
              { trend := trend, price_change_24h := fmt2 price_change ++ "%",
                analysis := "The market for " ++ crypto ++ " is showing a " ++ trend ++
                  " trend with a " ++ fmt2 price_change ++
                  "% price change in the last 24 hours." },
            message := none }
      else
        { status := "error", data := none,
          message := some ("Unable to analyze market trend for " ++ crypto) }

/-- The `risk_params` config of `RiskAssessmentAction`. -/
structure RiskParams where
  volatility_threshold : ℚ
  volume_threshold : ℚ
  market_cap_threshold : ℚ
  deriving DecidableEq, Repr

/-- The default `risk_params` installed by
`RiskAssessmentAction.initialize`. -/
def defaultRiskParams : RiskParams :=
  { volatility_threshold := 0.1, volume_threshold := 1000000,
    market_cap_threshold := 10000000 }

/-- Body shape read by `RiskAssessmentAction.execute`: the `market_data`
fields, each optional (`market_data.get(..., 0)` defaults). -/
structure RiskBody where
  price_change_percentage_24h : Option ℚ
  market_cap_usd : Option ℚ
  total_volume_usd : Option ℚ
  deriving DecidableEq, Repr

/-- The `data` payload of a successful `RiskAssessmentAction.execute`. -/
structure RiskData where
  risk_level : String
  risk_factors : List String
  assessment : String
  deriving DecidableEq, Repr

/-- Embeds `RiskAssessmentAction.execute`. -/
def risk_assessment_execute (params : RiskParams) (request : String)
    (outcome : HttpOutcome RiskBody) : ActionOut RiskData :=
  match (pySplitWs (((request.toLower).splitOn "risk of ").getLastD "")).head? with
  | none =>
    { status := "error", data := none,
      message := some "Error assessing risk: list index out of range" }
  | some w =>
    let asset := w.trim.toUpper
    match outcome with
    | .raised e =>
      { status := "error", data := none, message := some ("Error assessing risk: " ++ e) }
    | .resp status_code body =>
      if status_code = 200 then
        let price_change_24h := |body.price_change_percentage_24h.getD 0|
        let market_cap := body.market_cap_usd.getD 0
        let volume := body.total_volume_usd.getD 0
        let f1 : List String :=
          if price_change_24h > params.volatility_threshold then ["high volatility"] else []
        let l1 := if price_change_24h > params.volatility_threshold then "high" else "low"
        let f2 := f1 ++
          (if market_cap < params.market_cap_threshold then ["low market cap"] else [])
        let l2 := if market_cap < params.market_cap_threshold then "high" else l1
        let f3 := f2 ++
          (if volume < params.volume_threshold then ["low trading volume"] else [])
        let l3 :=
          if volume < params.volume_threshold then
            (if l2 ≠ "high" then "medium" else "high")
          else l2
        { status := "success",
          data := some
            { risk_level := l3, risk_factors := f3,
              assessment := "Investment in " ++ asset ++ " is considered " ++ l3 ++
                " risk due to " ++
                (if f3 ≠ [] then String.intercalate ", " f3 else "stable market conditions") ++
                "." },
          message := none }
      else
        { status := "error", data := none,
          message := some ("Unable to assess risk for " ++ asset) }

/-- The result-dict shape claimed for the `execute` methods: a `status`
that is "success" or "error", a `data` entry exactly on success and a
`message` entry exactly on error. -/
def wellFormedOut {α : Type} (r : ActionOut α) : Prop :=
  (r.status = "success" ∨ r.status = "error") ∧
  (r.status = "success" ↔ r.data.isSome = true) ∧
  (r.status = "error" ↔ r.message.isSome = true)

/-! ## Theorems for the claims -/

theorem dictGet_mem {α β : Type} [DecidableEq α] (l : List (α × β)) (k : α) (v : β)
    (h : dictGet l k = some v) : (k, v) ∈ l := by
  induction l with
  | nil => simp [dictGet] at h
  | cons kv rest ih =>
    rw [dictGet] at h
    by_cases hk : k = kv.1
    · rw [if_pos hk] at h
      obtain ⟨a, b⟩ := kv
      injection h with h2
      subst h2
      subst hk
      exact List.mem_cons_self _ _
    · rw [if_neg hk] at h
      right
      exact ih h


/-- C2: over the whole 0–10 range, `_risk_score_to_level` yields
exactly "Low" below 3, exactly "Medium" on [3, 5), exactly "High" at 5
and above, and always one of the three levels. -/
theorem risk_score_to_level_characterization (s : ℚ) (_h0 : 0 ≤ s) (_h10 : s ≤ 10) :
    (risk_score_to_level s = "Low" ↔ s < 3) ∧
    (risk_score_to_level s = "Medium" ↔ 3 ≤ s ∧ s < 5) ∧
    (risk_score_to_level s = "High" ↔ 5 ≤ s) ∧
    (risk_score_to_level s = "Low" ∨ risk_score_to_level s = "Medium" ∨
      risk_score_to_level s = "High") := by
  unfold risk_score_to_level
  by_cases h3 : s < 3 <;> by_cases h5 : s < 5 <;>
    simp [h3, h5] <;> linarith

/-- Witness for C2 at the concrete score 4. -/
theorem risk_score_to_level_characterization_witness :
    (risk_score_to_level 4 = "Low" ↔ (4 : ℚ) < 3) ∧
    (risk_score_to_level 4 = "Medium" ↔ (3 : ℚ) ≤ 4 ∧ (4 : ℚ) < 5) ∧
    (risk_score_to_level 4 = "High" ↔ (5 : ℚ) ≤ 4) ∧
    (risk_score_to_level 4 = "Low" ∨ risk_score_to_level 4 = "Medium" ∨
      risk_score_to_level 4 = "High") :=
  risk_score_to_level_characterization 4 (by norm_num) (by norm_num)

/-- C1: the combined risk score used by `get_strategy_recommendations`
is the arithmetic mean of the five risk dimensions, and
`_calculate_recommendation_strength` returns "Weak" whenever the risk
does not match the preference, and otherwise "Strong" exactly when the
point total is at least 7, "Moderate" exactly when it is in [4, 7),
and "Weak" exactly when it is below 4. -/
theorem recommendation_strength_characterization :
    (∀ rs : RiskScore, total_risk_score rs =
      ((rs.smart_contract_risk + rs.centralization_risk + rs.regulatory_risk +
        rs.market_risk + rs.technical_risk : ℤ) : ℚ) / 5) ∧
    (∀ roi risk tvl : ℚ, calculate_recommendation_strength false roi risk tvl = "Weak") ∧
    (∀ roi risk tvl : ℚ,
      (calculate_recommendation_strength true roi risk tvl = "Strong" ↔
        7 ≤ recommendation_points roi risk tvl) ∧
      (calculate_recommendation_strength true roi risk tvl = "Moderate" ↔
        4 ≤ recommendation_points roi risk tvl ∧ recommendation_points roi risk tvl < 7) ∧
      (calculate_recommendation_strength true roi risk tvl = "Weak" ↔
        recommendation_points roi risk tvl < 4)) := by
  refine ⟨fun rs => ?_, fun roi risk tvl => rfl, fun roi risk tvl => ?_⟩
  · unfold total_risk_score
    push_cast
    ring
  · unfold calculate_recommendation_strength
    by_cases h7 : recommendation_points roi risk tvl ≥ 7 <;>
      by_cases h4 : recommendation_points roi risk tvl ≥ 4 <;>
      simp [h7, h4] <;> omega

/-- C4: for every strategy in the hardcoded ROI table, every nonzero
amount and every number of months, `calculate_roi` returns exactly the
compound-interest values of the claim. -/
theorem calculate_roi_formula (s : String) (d : RoiParams)
    (hd : dictGet roi_data_table s = some d) (amount : ℚ) (ha : amount ≠ 0) (months : ℕ) :
    calculate_roi amount s months = .ok
      { base_return := amount * ((1 + d.base_apy / 12) ^ months - 1),
        extra_return := amount * ((1 + d.extra_rewards / 12) ^ months - 1),
        gas_cost := d.gas_cost_eth,
        total_return := amount * ((1 + d.base_apy / 12) ^ months - 1) +
          amount * ((1 + d.extra_rewards / 12) ^ months - 1) - d.gas_cost_eth,
        roi_percentage := 100 * (amount * ((1 + d.base_apy / 12) ^ months - 1) +
          amount * ((1 + d.extra_rewards / 12) ^ months - 1) - d.gas_cost_eth) / amount } := by
  unfold calculate_roi
  rw [hd]
  simp only [ha, if_false, RoiOutcome.ok.injEq, RoiResult.mk.injEq, true_and, and_true]
  ring

/-- Witness for C4: the Lido entry with amount 2 and three months. -/
theorem calculate_roi_formula_witness :
    calculate_roi 2 "Lido" 3 = .ok
      { base_return := 2 * ((1 + (0.038 : ℚ) / 12) ^ 3 - 1),
        extra_return := 2 * ((1 + (0 : ℚ) / 12) ^ 3 - 1),
        gas_cost := (0.02 : ℚ),
        total_return := 2 * ((1 + (0.038 : ℚ) / 12) ^ 3 - 1) +
          2 * ((1 + (0 : ℚ) / 12) ^ 3 - 1) - 0.02,
        roi_percentage := 100 * (2 * ((1 + (0.038 : ℚ) / 12) ^ 3 - 1) +
          2 * ((1 + (0 : ℚ) / 12) ^ 3 - 1) - 0.02) / 2 } :=
  calculate_roi_formula "Lido"
    { base_apy := 0.038, extra_rewards := 0, gas_cost_eth := 0.02 }
    rfl 2 (by norm_num) 3

/-- Helper: on a known strategy and nonzero amount, `calculate_roi`
produces a populated result dict. -/
theorem calculate_roi_ok_of_known (s : String)
    (hs : (dictGet roi_data_table s).isSome = true)
    (a : ℚ) (ha : a ≠ 0) (m : ℕ) : ∃ r, calculate_roi a s m = .ok r := by
  unfold calculate_roi
  cases h : dictGet roi_data_table s with
  | none => simp [h] at hs
  | some d =>
    simp only [ha, if_false]
    exact ⟨_, rfl⟩

/-- C8: unknown protocol names give `None` from `analyze_gas_costs` and
`get_protocol_data` and the empty dict from `calculate_roi`; the five
known names give the fixed table entries (and, for `calculate_roi` with
nonzero amount, the computed result dict). -/
theorem defi_tools_lookup_behavior (p : String) (a : ℚ) (m : ℕ) :
    (p ∉ knownProtocols →
      analyze_gas_costs p = none ∧ get_protocol_data p = none ∧
        calculate_roi a p m = .empty) ∧
    (p ∈ knownProtocols →
      (∃ gc, analyze_gas_costs p = some gc ∧ dictGet gas_estimates p = some gc) ∧
      (∃ pd, get_protocol_data p = some pd ∧ dictGet protocol_data_table p = some pd) ∧
      (a ≠ 0 → ∃ r, calculate_roi a p m = .ok r)) := by
  constructor
  · intro h
    simp only [knownProtocols, List.mem_cons, List.not_mem_nil, or_false, not_or] at h
    obtain ⟨h1, h2, h3, h4, h5⟩ := h
    refine ⟨?_, ?_, ?_⟩ <;>
      simp [analyze_gas_costs, get_protocol_data, calculate_roi, gas_estimates,
        protocol_data_table, roi_data_table, dictGet, h1, h2, h3, h4, h5]
  · intro h
    simp only [knownProtocols, List.mem_cons, List.not_mem_nil, or_false] at h
    rcases h with rfl | rfl | rfl | rfl | rfl <;>
      exact ⟨⟨_, rfl, rfl⟩, ⟨_, rfl, rfl⟩,
        fun ha => calculate_roi_ok_of_known _ (by rfl) a ha m⟩

/-- Witness for C8: the unknown name "Foo" and the known name "Lido". -/
theorem defi_tools_lookup_behavior_witness :
    (analyze_gas_costs "Foo" = none ∧ get_protocol_data "Foo" = none ∧
      calculate_roi 2 "Foo" 3 = .empty) ∧
    ((∃ gc, analyze_gas_costs "Lido" = some gc ∧ dictGet gas_estimates "Lido" = some gc) ∧
     (∃ pd, get_protocol_data "Lido" = some pd ∧
        dictGet protocol_data_table "Lido" = some pd) ∧
     (∃ r, calculate_roi 2 "Lido" 3 = .ok r)) := by
  refine ⟨(defi_tools_lookup_behavior "Foo" 2 3).1 (by decide), ?_⟩
  obtain ⟨x, y, z⟩ := (defi_tools_lookup_behavior "Lido" 2 3).2 (by decide)
  exact ⟨x, y, z (by norm_num)⟩

/-- C9: with a known strategy, `calculate_roi` succeeds for every
nonzero amount but hits a division by zero at amount 0, and the
gas-cost-percentage division in `_analyze_pros_cons` likewise fails
exactly at amount 0. -/
theorem roi_divides_by_amount (p : String) (hp : p ∈ knownProtocols)
    (a : ℚ) (ha : a ≠ 0) (m : ℕ) (pd : ProtocolData) (roi : RoiResult) (rs : RiskScore) :
    (∃ r, calculate_roi a p m = .ok r) ∧
    calculate_roi 0 p m = .divZero ∧
    analyze_pros_cons pd roi rs 0 = .divZero ∧
    (∃ pros cons, analyze_pros_cons pd roi rs a = .ok pros cons) := by
  simp only [knownProtocols, List.mem_cons, List.not_mem_nil, or_false] at hp
  refine ⟨?_, ?_, ?_, ?_⟩
  · rcases hp with rfl | rfl | rfl | rfl | rfl <;>
      exact calculate_roi_ok_of_known _ (by rfl) a ha m
  · rcases hp with rfl | rfl | rfl | rfl | rfl <;>
      simp [calculate_roi, roi_data_table, dictGet]
  · simp [analyze_pros_cons]
  · unfold analyze_pros_cons
    rw [if_neg ha]
    exact ⟨_, _, rfl⟩

/-- Witness for C9 at "Lido", amount 2, three months, with small
concrete records for the pros/cons arguments. -/
theorem roi_divides_by_amount_witness :
    (∃ r, calculate_roi 2 "Lido" 3 = .ok r) ∧
    calculate_roi 0 "Lido" 3 = .divZero ∧
    analyze_pros_cons
      { type := "Lending", apy := 1, tvl_billions := 1, insurance := "No",
        min_deposit := 1, withdrawal_time := "Instant", unique_features := [] }
      { base_return := 1, extra_return := 0, gas_cost := 1, total_return := 0,
        roi_percentage := 0 }
      { smart_contract_risk := 1, centralization_risk := 1, regulatory_risk := 1,
        market_risk := 1, technical_risk := 1,
        details := { audits := [], insurance_available := false, governance := "DAO",
                     years_active := 1 } }
      0 = .divZero ∧
    (∃ pros cons, analyze_pros_cons
      { type := "Lending", apy := 1, tvl_billions := 1, insurance := "No",
        min_deposit := 1, withdrawal_time := "Instant", unique_features := [] }
      { base_return := 1, extra_return := 0, gas_cost := 1, total_return := 0,
        roi_percentage := 0 }
      { smart_contract_risk := 1, centralization_risk := 1, regulatory_risk := 1,
        market_risk := 1, technical_risk := 1,
        details := { audits := [], insurance_available := false, governance := "DAO",
                     years_active := 1 } }
      2 = .ok pros cons) :=
  roi_divides_by_amount "Lido" (by decide) 2 (by norm_num) 3 _ _ _

/-- Tables with no reversed key pair: looking up the swap of any stored
key fails.  Holds for the Paris travel-time table. -/
theorem paris_no_reversed_keys :
    ∀ kv ∈ parisInfo.travel_times,
      dictGet parisInfo.travel_times (kv.1.2, kv.1.1) = none := by decide

/-- The Ho Chi Minh City travel-time table has no reversed key pair. -/
theorem hcmc_no_reversed_keys :
    ∀ kv ∈ hoChiMinhInfo.travel_times,
      dictGet hoChiMinhInfo.travel_times (kv.1.2, kv.1.1) = none := by decide

/-- For a table with no reversed key pair, the two-direction lookup
chain of `get_travel_time` is symmetric in the two locations. -/
theorem travel_lookup_symm (tbl : List ((String × String) × String))
    (hno : ∀ kv ∈ tbl, dictGet tbl (kv.1.2, kv.1.1) = none) (a b : String) :
    travel_lookup tbl a b = travel_lookup tbl b a := by
  cases h1 : dictGet tbl (a, b) with
  | none =>
    cases h2 : dictGet tbl (b, a) with
    | none => simp [travel_lookup, h1, h2]
    | some w => simp [travel_lookup, h1, h2]
  | some v =>
    cases h2 : dictGet tbl (b, a) with
    | none => simp [travel_lookup, h1, h2]
    | some w =>
      exfalso
      have hm := dictGet_mem tbl (a, b) v h1
      have hn : dictGet tbl (b, a) = none := hno ((a, b), v) hm
      rw [hn] at h2
      cases h2

/-- C10: `get_travel_time` is symmetric in its two location arguments
for every city, and for a known city it returns the entry stored under
either ordering of the pair, with the fixed fallback when neither
ordering is a key. -/
theorem get_travel_time_symmetric (city a b : String) :
    get_travel_time city a b = get_travel_time city b a ∧
    (match get_city_data city with
     | none => get_travel_time city a b =
         "Travel time information not available for " ++ city
     | some cd => get_travel_time city a b =
         (match dictGet cd.travel_times (a, b) with
          | some t => t
          | none =>
            match dictGet cd.travel_times (b, a) with
            | some t => t
            | none => "20-30 minutes by public transport (estimated)")) := by
  constructor
  · unfold get_travel_time get_city_data
    by_cases hp : city = "Paris"
    · simp only [hp, if_true]
      exact travel_lookup_symm _ paris_no_reversed_keys a b
    · by_cases hh : city = "Ho Chi Minh City"
      · simp only [hp, hh, if_false, if_true]
        exact travel_lookup_symm _ hcmc_no_reversed_keys a b
      · simp [hp, hh]
  · unfold get_travel_time
    cases get_city_data city with
    | none => rfl
    | some cd => rfl

/-- C7 counterexample: `get_token_info` does not return the same value
for every argument — on the address "abc" (no "0x" prefix) it raises
instead of returning the fixed dict it returns for "0x1". -/
theorem get_token_info_depends_on_arguments :
    (get_token_info defaultCfg "abc" "ethereum").result ≠
      (get_token_info defaultCfg "0x1" "ethereum").result := by
  have h1 : (get_token_info defaultCfg "abc" "ethereum").result =
      Except.error ProviderErr.invalidAddress := rfl
  have h2 : (get_token_info defaultCfg "0x1" "ethereum").result =
      Except.ok { name := "Test Token", symbol := "TEST", decimals := 18,
                  total_supply := 1000000000 } := rfl
  rw [h1, h2]
  intro h
  cases h

/-- Helper: on a validated request, `get_token_info` sleeps once and
returns its fixed dict. -/
theorem get_token_info_valid (cfg : ClientCfg) (a c : String)
    (h : validRequest cfg a c) :
    get_token_info cfg a c =
      { sleeps := 1,
        result := .ok { name := "Test Token", symbol := "TEST", decimals := 18,
                        total_supply := 1000000000 } } := by
  obtain ⟨hp, hc, hk, hm⟩ := h
  unfold get_token_info
  rcases hc with rfl | rfl <;> simp [hp, hk, hm]

/-- Helper: on a validated request, `get_token_price` sleeps once and
returns its fixed dict. -/
theorem get_token_price_valid (cfg : ClientCfg) (a c : String)
    (h : validRequest cfg a c) :
    get_token_price cfg a c =
      { sleeps := 1,
        result := .ok { price_usd := 1.23, price_change_24h := 5.5,
                        volume_24h_usd := 1000000 } } := by
  obtain ⟨hp, hc, hk, hm⟩ := h
  unfold get_token_price
  rcases hc with rfl | rfl <;> simp [hp, hk, hm]

/-- C7 (amended): for arguments that pass the stubs' validation,
`get_token_info` and `get_token_price` sleep once and return their
fixed dictionaries, identical across any two validated invocations;
`analyze_contract` returns its fixed dictionary for all arguments
unconditionally (and never sleeps). -/
theorem providers_fixed_for_valid_requests (cfg₁ cfg₂ : ClientCfg)
    (a₁ c₁ a₂ c₂ a₃ c₃ : String)
    (h₁ : validRequest cfg₁ a₁ c₁) (h₂ : validRequest cfg₂ a₂ c₂) :
    get_token_info cfg₁ a₁ c₁ =
      { sleeps := 1,
        result := .ok { name := "Test Token", symbol := "TEST", decimals := 18,
                        total_supply := 1000000000 } } ∧
    get_token_info cfg₂ a₂ c₂ = get_token_info cfg₁ a₁ c₁ ∧
    get_token_price cfg₁ a₁ c₁ =
      { sleeps := 1,
        result := .ok { price_usd := 1.23, price_change_24h := 5.5,
                        volume_24h_usd := 1000000 } } ∧
    get_token_price cfg₂ a₂ c₂ = get_token_price cfg₁ a₁ c₁ ∧
    analyze_contract a₃ c₃ =
      { sleeps := 0,
        result := .ok
          { risk_score := 75,
            issues := [("medium", "centralization", "Owner has significant privileges")],
            recommendations := ["Monitor owner actions", "Consider implementing timelock"] } } :=
  ⟨get_token_info_valid cfg₁ a₁ c₁ h₁,
   (get_token_info_valid cfg₂ a₂ c₂ h₂).trans (get_token_info_valid cfg₁ a₁ c₁ h₁).symm,
   get_token_price_valid cfg₁ a₁ c₁ h₁,
   (get_token_price_valid cfg₂ a₂ c₂ h₂).trans (get_token_price_valid cfg₁ a₁ c₁ h₁).symm,
   rfl⟩

/-- Witness for the amended C7 at two different validated requests. -/
theorem providers_fixed_for_valid_requests_witness :
    get_token_info defaultCfg "0x1" "ethereum" =
      { sleeps := 1,
        result := .ok { name := "Test Token", symbol := "TEST", decimals := 18,
                        total_supply := 1000000000 } } ∧
    get_token_info defaultCfg "0xabc" "bsc" = get_token_info defaultCfg "0x1" "ethereum" ∧
    get_token_price defaultCfg "0x1" "ethereum" =
      { sleeps := 1,
        result := .ok { price_usd := 1.23, price_change_24h := 5.5,
                        volume_24h_usd := 1000000 } } ∧
    get_token_price defaultCfg "0xabc" "bsc" = get_token_price defaultCfg "0x1" "ethereum" ∧
    analyze_contract "anything" "anywhere" =
      { sleeps := 0,
        result := .ok
          { risk_score := 75,
            issues := [("medium", "centralization", "Owner has significant privileges")],
            recommendations := ["Monitor owner actions", "Consider implementing timelock"] } } :=
  providers_fixed_for_valid_requests defaultCfg defaultCfg "0x1" "ethereum" "0xabc" "bsc"
    "anything" "anywhere" (by decide) (by decide)

/-- C5: whenever `analyze_token` completes with a `TokenAnalysis`, the
data-provider calls it made are exactly `get_token_info`,
`get_holder_distribution`, `get_token_price` and `analyze_contract`, in
that order, once each, on the given address and blockchain. -/
theorem analyze_token_four_calls (bcfg mcfg : ClientCfg) (addr chain : String)
    (h : (analyze_token bcfg mcfg addr chain).2.isOk = true) :
    (analyze_token bcfg mcfg addr chain).1 =
      [DataCall.tokenInfo addr chain, DataCall.holderDist addr chain,
       DataCall.tokenPrice addr chain, DataCall.contractAnalysis addr chain] := by
  unfold analyze_token agent_analyze_distribution agent_get_market_metrics at h ⊢
  dsimp only at h ⊢
  cases hti : (get_token_info bcfg addr chain).result with
  | error e => rw [hti] at h; simp [Except.isOk, Except.toBool] at h
  | ok ti =>
    rw [hti] at h
    dsimp only at h ⊢
    cases hpr : (get_token_price mcfg addr chain).result with
    | error e =>
      rw [hpr] at h
      simp [Except.map, Except.isOk, Except.toBool] at h
    | ok pr =>
      simp [Except.map, analyze_contract]

/-- Witness for C5 on a validated concrete request. -/
theorem analyze_token_four_calls_witness :
    (analyze_token defaultCfg defaultCfg "0x1" "ethereum").1 =
      [DataCall.tokenInfo "0x1" "ethereum", DataCall.holderDist "0x1" "ethereum",
       DataCall.tokenPrice "0x1" "ethereum", DataCall.contractAnalysis "0x1" "ethereum"] :=
  analyze_token_four_calls defaultCfg defaultCfg "0x1" "ethereum" (by rfl)

/-- Helper: the success-shaped result dict is well formed. -/
theorem wellFormed_success {α : Type} (d : α) :
    wellFormedOut { status := "success", data := some d, message := none } := by
  refine ⟨Or.inl rfl, ?_, ?_⟩ <;> simp

/-- Helper: the error-shaped result dict is well formed. -/
theorem wellFormed_error {α : Type} (m : String) :
    wellFormedOut ({ status := "error", data := none, message := some m } : ActionOut α) := by
  refine ⟨Or.inr rfl, ?_, ?_⟩ <;> simp

/-- C6: for every request string and every outcome of the wrapped HTTP
call (raised exception, any status code, any body of the read shape),
the three `execute` methods return a dict whose status is "success" or
"error", with `data` exactly on success and `message` exactly on
error — no exception escapes. -/
theorem actions_execute_well_formed :
    (∀ cur req : String, ∀ o : HttpOutcome PriceBody,
      wellFormedOut (price_fetch_execute cur req o)) ∧
    (∀ req : String, ∀ o : HttpOutcome MarketBody,
      wellFormedOut (market_analysis_execute req o)) ∧
    (∀ params : RiskParams, ∀ req : String, ∀ o : HttpOutcome RiskBody,
      wellFormedOut (risk_assessment_execute params req o)) := by
  refine ⟨fun cur req o => ?_, fun req o => ?_, fun params req o => ?_⟩
  · unfold price_fetch_execute
    dsimp only
    repeat' split
    all_goals first
      | exact wellFormed_success _
      | exact wellFormed_error _
  · unfold market_analysis_execute
    dsimp only
    repeat' split
    all_goals first
      | exact wellFormed_success _
      | exact wellFormed_error _
  · unfold risk_assessment_execute
    dsimp only
    repeat' split
    all_goals first
      | exact wellFormed_success _
      | exact wellFormed_error _

/-- Helper for C3: whatever the recommendation loop produced, the final
`sorted(..., reverse=True)` stage emits a list ordered by the
descending `(strength score, expected ROI)` key. -/
theorem sorted_of_build (amount : ℚ) (months : ℕ) (pref : String)
    (minA maxG : Option ℚ) (names : List String) (l : List StrategyRecommendation)
    (h : Except.map (List.insertionSort recommendedBefore)
      (build_recommendations amount months pref minA maxG names) = .ok l) :
    l.Chain' recommendedBefore := by
  cases hb : build_recommendations amount months pref minA maxG names with
  | error e => rw [hb] at h; simp [Except.map] at h
  | ok recs =>
    rw [hb] at h
    simp only [Except.map, Except.ok.injEq] at h
    rw [← h]
    exact (List.sorted_insertionSort recommendedBefore recs).chain'

/-- C3: every list that `get_strategy_recommendations` returns is
sorted: each adjacent pair is ordered by strictly greater strength
score, or equal strength score and at-least-as-large expected ROI. -/
theorem get_strategy_recommendations_sorted (amount : ℚ) (months : ℕ)
    (pref : String) (sp : Option (List String)) (minA maxG : Option ℚ)
    (l : List StrategyRecommendation)
    (h : get_strategy_recommendations amount months pref sp minA maxG = .ok l) :
    l.Chain' recommendedBefore := by
  unfold get_strategy_recommendations at h
  dsimp only at h
  exact sorted_of_build amount months pref minA maxG _ l h

/-- Witness for C3 on a concrete run (protocol filter matching no
strategy, so the pipeline returns an empty, trivially sorted list). -/
theorem get_strategy_recommendations_sorted_witness :
    ([] : List StrategyRecommendation).Chain' recommendedBefore :=
  get_strategy_recommendations_sorted 10 6 "medium" (some ["Nope"]) none none [] (by rfl)

end DeFiRepo
